import Mathlib

/-!
Shallow embedding of the two utilities of this repository and proofs about them.

Pipeline A (`mark_customer_type.py`): a spreadsheet post-processor that labels
order rows as new (新增) or existing (存量) customers relative to the cutoff
date 2025-01-01, and writes the labels plus background fills into column T of
the worksheet.

Pipeline B (`markdown_to_excel.py`): a markdown-to-table converter that
segments a document into date sections (heading regex `## (\d{4}-\d{2}-\d{2})`),
splits each section into entries on the literal marker `### `, extracts labeled
fields per entry with fixed regexes, validates records, and derives a numeric
amount column.

Modelling conventions:
* Text is modelled as `List Char` (`Chars`); `String` values appear at the
  interfaces.  Python regexes are embedded as dedicated character-level
  matching functions that implement the exact backtracking behaviour of the
  concrete patterns appearing in the source.
* `pd.to_datetime(..., errors='coerce')` is modelled by `parse_date` over an
  abstract date cell: a missing or unparseable cell parses to `none`, a
  parseable one to `some d` where the integer `d` orders chronologically
  (e.g. the yyyymmdd encoding); the cutoff `pd.Timestamp('2025-01-01')` is the
  constant `year_2025_start`.
* Python floats are modelled as `ℚ`; all concrete amounts involved are exactly
  representable decimals.
* The converter configuration is modelled by `Config`, keeping the fields of
  the source configuration that the parser consults in a non-regex way
  (`entry_pattern`, which is read at line 87 but never used;
  `header_name_extraction`; `required_fields`; `amount_validation`).  The
  regex-valued entries (`date_pattern`, `field_patterns`,
  `header_name_patterns`) are fixed at their built-in defaults, compiled into
  the matching functions below.  For the configuration-file semantics of
  `load_config` (which is about the whole nested mapping) a generic `Yaml`
  tree is used instead.
-/

abbrev Chars := List Char

/-- Python whitespace (`\s`, `str.strip`), restricted to the ASCII range. -/
def isSpace (c : Char) : Bool :=
  c = ' ' || c = '\t' || c = '\n' || c = '\r' || c = '\x0b' || c = '\x0c'

/-- Python `str.strip()`: remove leading and trailing whitespace. -/
def stripChars (l : Chars) : Chars :=
  ((l.dropWhile isSpace).reverse.dropWhile isSpace).reverse

/-- Python `str.strip()` on `String`. -/
def stripString (s : String) : String := String.mk (stripChars s.data)

/-- The characters stripped by `value.rstrip('；;。.')` in the source. -/
def isTrailPunct (c : Char) : Bool :=
  c = '；' || c = ';' || c = '。' || c = '.'

/-- Python `str.rstrip('；;。.')`. -/
def rstripPunct (l : Chars) : Chars :=
  (l.reverse.dropWhile isTrailPunct).reverse

/-- Whether `re.search(r'\d+\.?\d*', s)` succeeds: the pattern needs at least
one digit, so search succeeds exactly when some character is a digit. -/
def hasDigitString (s : String) : Bool := s.data.any Char.isDigit

/-! ## Pipeline A: `mark_customer_type.py` -/

/-- An order-creation-date cell of column C, as seen by
`pd.to_datetime(..., errors='coerce')`: either empty, unparseable text, or a
date (encoded as an integer that orders chronologically). -/
inductive DateCell where
  | missing
  | invalid (raw : String)
  | valid (d : Int)
deriving DecidableEq

/-- `pd.to_datetime(..., errors='coerce')` at one cell: missing and
unparseable cells both coerce to `NaT` (`none`). -/
def parse_date : DateCell → Option Int
  | .missing => none
  | .invalid _ => none
  | .valid d => some d

/-- One data row of the table, keeping the three columns the tool uses:
column C (index 2, order creation date), column G (index 6, customer
identifier), column T (index 19, the customer-type mark). -/
structure Row where
  dateCell : DateCell
  idCell : Option String
  mark : String
deriving DecidableEq

/-- `pd.Timestamp('2025-01-01')` in the integer date encoding (yyyymmdd). -/
def year_2025_start : Int := 20250101

/-- The contribution of one row to
`self.df[self.df[date_col] < year_2025_start][id_col].dropna()`:
the identifier, when the parsed date is strictly before the cutoff and the
identifier is present. -/
def pre_2025_row (r : Row) : Option String :=
  match parse_date r.dateCell, r.idCell with
  | some d, some cid => if d < year_2025_start then some cid else none
  | _, _ => none

/-- The pre-2025 customer identifier set (lines 103–105), as the list of
contributing identifiers; only membership is ever used. -/
def pre_2025_customers (rows : List Row) : List String :=
  rows.filterMap pre_2025_row

/-- The per-row labelling of the loop at lines 116–137.  A row with a missing
(or unparseable) date or a missing identifier is skipped and keeps the
initialisation value `''` from line 110. -/
def mark_row (pre : List String) (r : Row) : String :=
  match parse_date r.dateCell, r.idCell with
  | some d, some cid =>
    if d < year_2025_start then "存量"
    else if cid ∈ pre then "存量" else "新增"
  | _, _ => ""

/-- `CustomerTypeMarker.mark_customer_types` (lines 74–148): build the
pre-2025 identifier set, reset the mark column to `''`, then label each row. -/
def mark_customer_types (rows : List Row) : List Row :=
  let pre := pre_2025_customers rows
  rows.map (fun r => { r with mark := mark_row pre r })

/-- `COLOR_NEW_CUSTOMER` (line 20). -/
def COLOR_NEW_CUSTOMER : String := "C6EFCE"

/-- `COLOR_EXISTING_CUSTOMER` (line 21). -/
def COLOR_EXISTING_CUSTOMER : String := "FFEB9C"

/-- One worksheet cell: its value and its background-fill color. -/
structure CellState where
  value : Option String
  fill : Option String
deriving DecidableEq

/-- A worksheet as a cell grid indexed by (column, row), both 1-based;
column 20 is the column letter T used by `apply_formatting`. -/
def Worksheet := Nat → Nat → CellState

/-- Point update of a single worksheet cell. -/
def setCell (ws : Worksheet) (c r : Nat) (f : CellState → CellState) : Worksheet :=
  fun c2 r2 => if c2 = c ∧ r2 = r then f (ws c r) else ws c2 r2

/-- The body of the loop at lines 167–179: write the mark value into the cell
and apply a solid fill keyed by the value (no fill for any other value). -/
def write_mark (m : String) (cs : CellState) : CellState :=
  let cs1 : CellState := { cs with value := some m }
  if m = "新增" then { cs1 with fill := some COLOR_NEW_CUSTOMER }
  else if m = "存量" then { cs1 with fill := some COLOR_EXISTING_CUSTOMER }
  else cs1

/-- The loop of `apply_formatting`, row by row starting at `start_row`. -/
def apply_formatting_aux : List String → Nat → Worksheet → Worksheet
  | [], _, ws => ws
  | m :: ms, s, ws => apply_formatting_aux ms (s + 1) (setCell ws 20 s (write_mark m))

/-- `CustomerTypeMarker.apply_formatting` (lines 150–187): for dataframe row
index `idx`, write the mark column value into cell `T{3 + idx}` and color it
according to the value; `marks` is the mark column of the dataframe. -/
def apply_formatting (marks : List String) (ws : Worksheet) : Worksheet :=
  apply_formatting_aux marks 3 ws

/-! ## Pipeline B: `markdown_to_excel.py` — segmentation -/

/-- Matching of the date-heading regex `## (\d{4}-\d{2}-\d{2})` at the head of
the text, returning the captured group (the ten date characters). -/
def matchDateAt : Chars → Option Chars
  | c1 :: c2 :: c3 :: a :: b :: c :: d :: m1 :: e :: f :: m2 :: g :: h :: _ =>
    if c1 = '#' ∧ c2 = '#' ∧ c3 = ' ' ∧
       a.isDigit ∧ b.isDigit ∧ c.isDigit ∧ d.isDigit ∧ m1 = '-' ∧
       e.isDigit ∧ f.isDigit ∧ m2 = '-' ∧ g.isDigit ∧ h.isDigit
    then some [a, b, c, d, '-', e, f, '-', g, h]
    else none
  | _ => none

/-- The sectioning loop of `parse_markdown_content` (lines 90–106): scan the
text for date-heading matches; return the text before the first match together
with the list of sections, each as (captured date, section text), where a
section spans from its heading to the start of the next heading (or the end of
the text).  `re.finditer` yields non-overlapping matches left to right, and no
occurrence of the heading pattern can begin strictly inside a 13-character
match (the characters at offsets 1–12 of a match are `#`, a space, digits and
dashes, never the two `#` the pattern starts with), so scanning every position
finds exactly the `finditer` matches. -/
def splitAtDates : Chars → Chars × List (Chars × Chars)
  | [] => ([], [])
  | c :: rest =>
    match matchDateAt (c :: rest), splitAtDates rest with
    | some cap, (p, secs) => ([], (cap, c :: p) :: secs)
    | none, (p, secs) => (c :: p, secs)

/-- The `sections` list built at lines 93–106: if there is no date heading at
all, the loop never runs and the list is empty; otherwise the text before the
first heading (if nonempty) is recorded as a section with no date, followed by
the dated sections. -/
def parseSections (content : Chars) : List (Option Chars × Chars) :=
  match splitAtDates content with
  | (_, []) => []
  | (pre, secs) =>
    (if pre = [] then [] else [((none : Option Chars), pre)])
      ++ secs.map (fun s => (some s.1, s.2))

/-- `re.split(r'### ', section)` (line 116): split on the literal entry
marker, leftmost non-overlapping occurrences. -/
def splitEntries : Chars → List Chars
  | [] => [[]]
  | '#' :: '#' :: '#' :: ' ' :: rest => [] :: splitEntries rest
  | c :: rest =>
    match splitEntries rest with
    | [] => [[c]]
    | f :: fs => (c :: f) :: fs

/-- The raw entries of a document, before per-entry record extraction: for
every dated section, the fragments after the first (line 116 drops fragment 0
as the section preamble), each attributed to its section's date; sections
without a date are skipped (lines 110–111), so text before the first heading
contributes nothing. -/
def raw_entries (content : String) : List (String × String) :=
  ((parseSections content.data).map (fun sec =>
    match sec.1 with
    | none => []
    | some d => ((splitEntries sec.2).drop 1).map (fun e => (String.mk d, String.mk e)))).flatten

/-! ## Pipeline B: field extraction -/

/-- Strip a literal character sequence from the head of the text. -/
def dropLit : Chars → Chars → Option Chars
  | [], s => some s
  | _, [] => none
  | c :: cs, d :: ds => if c = d then dropLit cs ds else none

/-- The tail `[：:]\s*([^；;]+)` common to all field patterns, matched at the
head of the text; returns the captured group.  Backtracking of the greedy
`\s*` against `([^；;]+)`: if every character after the whitespace run is a
semicolon (or the text ends), the `+` takes the last whitespace character and
then stops at the semicolon, so the capture is that single character. -/
def matchColonTail : Chars → Option Chars
  | [] => none
  | c :: rest =>
    if c = '：' ∨ c = ':' then
      let ws := rest.takeWhile isSpace
      let body := rest.dropWhile isSpace
      let cap := body.takeWhile (fun x => !(x = '；' || x = ';'))
      if cap ≠ [] then some cap
      else
        match ws.getLast? with
        | some w => some [w]
        | none => none
    else none

/-- Matching of a default field pattern `LABEL[：:]\s*([^；;]+)` at the head of
the text. -/
def matchFieldAt (label : Chars) (s : Chars) : Option Chars :=
  match dropLit label s with
  | none => none
  | some rest => matchColonTail rest

/-- `re.search` of a field pattern: the match at the leftmost position where
one exists. -/
def searchField (label : Chars) : Chars → Option Chars
  | [] => none
  | c :: rest =>
    match matchFieldAt label (c :: rest) with
    | some cap => some cap
    | none => searchField label rest

/-- The character class `[/订单号/交易单号/流水号]` of the 交易流水号 pattern:
a set of characters, not alternatives. -/
def serialClassChar (c : Char) : Bool :=
  c = '/' || c = '订' || c = '单' || c = '号' || c = '交' || c = '易' || c = '流' || c = '水'

/-- Matching of the 交易流水号 pattern
`交易流水号[/订单号/交易单号/流水号]*[：:]\s*([^；;]+)` at the head of the
text.  The greedy class repetition is followed by the colon class; no class
character is a colon, so giving characters back can never help and the
maximal run is the only candidate. -/
def matchSerialAt (s : Chars) : Option Chars :=
  match dropLit "交易流水号".data s with
  | none => none
  | some rest => matchColonTail (rest.dropWhile serialClassChar)

/-- `re.search` of the 交易流水号 pattern. -/
def searchSerial : Chars → Option Chars
  | [] => none
  | c :: rest =>
    match matchSerialAt (c :: rest) with
    | some cap => some cap
    | none => searchSerial rest

/-- The lazy group of `(.+?)(?:\s|$)` matched at the head of a line with no
newline in it: the shortest nonempty prefix whose successor character is
whitespace or the end of the line. -/
def lazyCapture : Chars → Option Chars
  | [] => none
  | c :: rest => some (c :: rest.takeWhile (fun x => !isSpace x))

/-- Matching of a labeled header pattern `^LABEL[：:]\s*(.+?)(?:\s|$)` against
a whole line.  When everything after the colon is whitespace, the greedy `\s*`
backtracks by one character, the lazy group takes that whitespace character,
and `$` closes the match. -/
def matchHeaderLabeled (label : Chars) (line : Chars) : Option Chars :=
  match dropLit label line with
  | none => none
  | some [] => none
  | some (c :: rest) =>
    if c = '：' ∨ c = ':' then
      let body := rest.dropWhile isSpace
      match body with
      | [] =>
        match (rest.takeWhile isSpace).getLast? with
        | some w => some [w]
        | none => none
      | _ => lazyCapture body
    else none

/-- Matching of the bare header pattern `^(.+?)(?:\s|$)` against a whole
line. -/
def matchHeaderBare (line : Chars) : Option Chars := lazyCapture line

/-! ## Pipeline B: converter configuration and records -/

/-- The converter configuration fields that `parse_markdown_content`,
`extract_name_from_header` and `validate_record` consult in a non-regex way.
`entry_pattern` (`parsing_rules.entry_pattern`) is read at line 87 but never
used; the regex-valued configuration entries are fixed at their built-in
defaults (see the module docstring). -/
structure Config where
  entry_pattern : String
  header_name_extraction : Bool
  required_fields : List String
  amount_validation : Bool
deriving DecidableEq

/-- The relevant fields of `load_default_config` (lines 32–67). -/
def default_config : Config :=
  { entry_pattern := "### (.+?)(?=###|##|$)"
  , header_name_extraction := true
  , required_fields := ["姓名", "交易金额"]
  , amount_validation := true }

/-- One extracted transaction record: the key 日期 set at line 122 plus the
nine keys of `field_patterns`, each defaulting to the empty string. -/
structure Record where
  «日期» : String
  «姓名» : String
  «交易笔数» : String
  «交易金额» : String
  «交易日期» : String
  «交易时间» : String
  «交易流水号» : String
  «支付方式» : String
  «商户» : String
  «备注» : String
deriving DecidableEq

/-- Python `record.get(f, "")`: every record built by the parser has exactly
these ten keys, any other key yields the default. -/
def Record.get (r : Record) (f : String) : String :=
  if f = "日期" then r.«日期»
  else if f = "姓名" then r.«姓名»
  else if f = "交易笔数" then r.«交易笔数»
  else if f = "交易金额" then r.«交易金额»
  else if f = "交易日期" then r.«交易日期»
  else if f = "交易时间" then r.«交易时间»
  else if f = "交易流水号" then r.«交易流水号»
  else if f = "支付方式" then r.«支付方式»
  else if f = "商户" then r.«商户»
  else if f = "备注" then r.«备注»
  else ""

/-- `value.strip()` followed by `value.rstrip('；;。.')` (lines 133–135). -/
def cleanValue (v : Chars) : String := String.mk (rstripPunct (stripChars v))

/-- The name-cleaning steps of `extract_name_from_header` (lines 174–176). -/
def clean_name (n : Chars) : Chars := rstripPunct (stripChars n)

/-- The character class `[\d\(\)\[\]/\\\-_=+]` of the name validity check
(line 178). -/
def isBadNameChar (c : Char) : Bool :=
  c.isDigit || c = '(' || c = ')' || c = '[' || c = ']' || c = '/' ||
  c = '\\' || c = '-' || c = '_' || c = '=' || c = '+'

/-- The name validity check of line 178: length between 1 and 10 and no
digit or special character. -/
def valid_name (n : Chars) : Bool :=
  1 ≤ n.length && n.length ≤ 10 && !(n.any isBadNameChar)

/-- One iteration of the header-pattern loop (lines 170–182): on a match,
clean the captured name and return it only when it passes the validity check;
otherwise fall through to the next pattern. -/
def tryHeaderPat (res : Option Chars) : Option Chars :=
  match res with
  | some m =>
    let n := clean_name m
    if valid_name n then some n else none
  | none => none

/-- `MarkdownToExcelConverter.extract_name_from_header` (lines 150–184) with
the default `header_name_patterns`: take the first line of the stripped entry,
strip it, and try the three patterns in order. -/
def extract_name_from_header (cfg : Config) (entry : Chars) : Option Chars :=
  if cfg.header_name_extraction = false then none
  else
    let first_line := stripChars ((stripChars entry).takeWhile (fun c => !(c = '\n')))
    match tryHeaderPat (matchHeaderLabeled "客户姓名".data first_line) with
    | some n => some n
    | none =>
      match tryHeaderPat (matchHeaderLabeled "姓名".data first_line) with
      | some n => some n
      | none => tryHeaderPat (matchHeaderBare first_line)

/-- The per-field step of the loop at lines 130–142: on a regex match the
cleaned capture is stored (overwriting a header-extracted name); on no match
the already-present value (the header name, or the empty-string default) is
kept. -/
def extractField (entry : Chars) (label : String) (dflt : String) : String :=
  match searchField label.data entry with
  | some v => cleanValue v
  | none => dflt

/-- The 交易流水号 instance of the same step. -/
def extractSerial (entry : Chars) : String :=
  match searchSerial entry with
  | some v => cleanValue v
  | none => ""

/-- Building the record of one entry (lines 122–142), with the default
`field_patterns` in their configured order. -/
def build_record (cfg : Config) (date : Chars) (entry : Chars) : Record :=
  let headerName : String :=
    match extract_name_from_header cfg entry with
    | some n => String.mk n
    | none => ""
  { «日期» := String.mk date
  , «姓名» := extractField entry "姓名" headerName
  , «交易笔数» := extractField entry "交易笔数" ""
  , «交易金额» := extractField entry "交易金额" ""
  , «交易日期» := extractField entry "交易日期" ""
  , «交易时间» := extractField entry "交易时间" ""
  , «交易流水号» := extractSerial entry
  , «支付方式» := extractField entry "支付方式" ""
  , «商户» := extractField entry "商户" ""
  , «备注» := extractField entry "备注" "" }

/-- `MarkdownToExcelConverter.validate_record` (lines 186–201): an empty
required-field list returns `true` immediately; otherwise reject when some
required field strips to empty, then, when amount validation is on, reject a
nonempty amount with no digit. -/
def validate_record (cfg : Config) (record : Record) : Bool :=
  if cfg.required_fields.isEmpty then true
  else if cfg.required_fields.any (fun f => stripString (record.get f) == "") then false
  else if cfg.amount_validation && record.«交易金额» != "" && !hasDigitString record.«交易金额» then false
  else true

/-- The per-section part of the entry loop (lines 116–146): drop the first
split fragment, skip entries that strip to nothing, build each record and
keep it only when it validates. -/
def section_records (cfg : Config) (date : Chars) (sec : Chars) : List Record :=
  ((splitEntries sec).drop 1).filterMap (fun entry =>
    if stripChars entry = [] then none
    else
      let record := build_record cfg date entry
      if validate_record cfg record then some record else none)

/-- `MarkdownToExcelConverter.parse_markdown_content` (lines 80–148).  The
configured `entry_pattern` is read (line 87) into a local that is never used:
the split at line 116 is on the literal `'### '`. -/
def parse_markdown_content (cfg : Config) (content : String) : List Record :=
  let _entry_pattern := cfg.entry_pattern
  ((parseSections content.data).map (fun sec =>
    match sec.1 with
    | none => []
    | some date => section_records cfg date sec.2)).flatten

/-! ## Pipeline B: amount cleaning -/

/-- The first match of `(\d+\.?\d*)` in a text: the digits from the leftmost
digit onward, plus a fractional digit run when a dot immediately follows.
Every piece is greedy and no alternative can fail, so there is no
backtracking. -/
def firstNumber (l : Chars) : Option (Chars × Chars) :=
  match l.dropWhile (fun c => !c.isDigit) with
  | [] => none
  | rest =>
    let ds := rest.takeWhile Char.isDigit
    match rest.dropWhile Char.isDigit with
    | '.' :: tail => some (ds, tail.takeWhile Char.isDigit)
    | _ => some (ds, [])

/-- Numeric value of a digit run. -/
def digitsToNat (l : Chars) : Nat :=
  l.foldl (fun acc c => 10 * acc + (c.toNat - '0'.toNat)) 0

/-- `MarkdownToExcelConverter.clean_amount` (lines 203–212): empty string to
zero; otherwise strip commas, extract the first `(\d+\.?\d*)` match and read
it as a number (`float` is modelled by `ℚ`); zero when there is no match. -/
def clean_amount (s : String) : ℚ :=
  if s = "" then 0
  else
    match firstNumber (s.data.filter (fun c => !(c = ','))) with
    | none => 0
    | some (ds, fs) => (digitsToNat ds : ℚ) + (digitsToNat fs : ℚ) / (10 : ℚ) ^ fs.length

/-! ## Pipeline B: configuration file loading -/

/-- A structured configuration document, as produced by `yaml.safe_load`. -/
inductive Yaml where
  | str : String → Yaml
  | boolean : Bool → Yaml
  | arr : List Yaml → Yaml
  | map : List (String × Yaml) → Yaml

/-- Lookup of a top-level key in a configuration document. -/
def Yaml.getKey : Yaml → String → Option Yaml
  | .map kvs, k => kvs.lookup k
  | _, _ => none

/-- The full built-in default configuration of `load_default_config`
(lines 32–67) as a configuration document. -/
def default_config_yaml : Yaml :=
  .map
    [ ("parsing_rules", .map
        [ ("date_pattern", .str "## (\\d{4}-\\d{2}-\\d{2})")
        , ("entry_pattern", .str "### (.+?)(?=###|##|$)")
        , ("header_name_extraction", .boolean true)
        , ("field_patterns", .map
            [ ("姓名", .str "姓名[：:]\\s*([^；;]+)")
            , ("交易笔数", .str "交易笔数[：:]\\s*([^；;]+)")
            , ("交易金额", .str "交易金额[：:]\\s*([^；;]+)")
            , ("交易日期", .str "交易日期[：:]\\s*([^；;]+)")
            , ("交易时间", .str "交易时间[：:]\\s*([^；;]+)")
            , ("交易流水号", .str "交易流水号[/订单号/交易单号/流水号]*[：:]\\s*([^；;]+)")
            , ("支付方式", .str "支付方式[：:]\\s*([^；;]+)")
            , ("商户", .str "商户[：:]\\s*([^；;]+)")
            , ("备注", .str "备注[：:]\\s*([^；;]+)") ])
        , ("header_name_patterns", .arr
            [ .str "^客户姓名[：:]\\s*(.+?)(?:\\s|$)"
            , .str "^姓名[：:]\\s*(.+?)(?:\\s|$)"
            , .str "^(.+?)(?:\\s|$)" ]) ])
    , ("output_settings", .map
        [ ("excel_filename", .str "转换结果_{timestamp}.xlsx")
        , ("sheet_name", .str "交易记录")
        , ("include_summary", .boolean true)
        , ("auto_resize_columns", .boolean true) ])
    , ("validation", .map
        [ ("required_fields", .arr [.str "姓名", .str "交易金额"])
        , ("amount_validation", .boolean true)
        , ("date_validation", .boolean true) ]) ]

/-- `MarkdownToExcelConverter.load_config` (lines 74–78): when the path
exists (`file = some parsed`) the in-memory configuration is assigned the
parsed file contents wholesale; when it does not (`file = none`) the
configuration is left unchanged.  There is no merging with the defaults. -/
def load_config (file : Option Yaml) (current : Yaml) : Yaml :=
  match file with
  | some y => y
  | none => current

/-- A present-but-partial configuration file containing only the
`output_settings` section. -/
def partial_config_file : Yaml :=
  .map [("output_settings", .map [("include_summary", .boolean false)])]

/-! ## Concrete data used in examples and instantiations -/

/-- The entry document of the field-extractor example: one date heading, one
entry whose first line is a bare name and whose body carries an amount. -/
def c5doc : String := "## 2025-09-20\n### 张三\n交易金额：100.50元；\n"

/-- A document with text before the first heading, two date headings, three
entry markers under the first heading and one under the second. -/
def c2doc : String :=
  "intro\n## 2025-01-01\n### Aa\nx\n### Bb\ny\n### Cc\nz\n## 2025-01-02\n### Dd\nw\n"

/-- A worksheet with every cell empty and unfilled. -/
def wsBlank : Worksheet := fun _ _ => { value := none, fill := none }

/-- A small table: a pre-2025 row, a 2025 row reusing its identifier, a 2025
row with a fresh identifier, and a row with no date. -/
def wrows : List Row :=
  [ { dateCell := .valid 20240315, idCell := some "ID1", mark := "" }
  , { dateCell := .valid 20250202, idCell := some "ID1", mark := "" }
  , { dateCell := .valid 20250203, idCell := some "ID2", mark := "" }
  , { dateCell := .missing, idCell := some "ID3", mark := "old" } ]

/-- A configuration with an empty required-field list and amount validation
still enabled. -/
def c3_cfg_no_required : Config := { default_config with required_fields := [] }

/-- A record whose amount is nonempty but contains no digit. -/
def c3_bad_record : Record :=
  { «日期» := "2025-01-01", «姓名» := "甲", «交易笔数» := "", «交易金额» := "abc"
  , «交易日期» := "", «交易时间» := "", «交易流水号» := "", «支付方式» := ""
  , «商户» := "", «备注» := "" }

/-- A record with the amount field missing (empty). -/
def c3_missing_amount_record : Record :=
  { «日期» := "2025-01-01", «姓名» := "张三", «交易笔数» := "", «交易金额» := ""
  , «交易日期» := "", «交易时间» := "", «交易流水号» := "", «支付方式» := ""
  , «商户» := "", «备注» := "" }

/-- Rejection condition exactly as the specification phrases it: some
configured required field strips to empty, or amount validation is enabled
and the amount is nonempty with no digit substring.  Stated from the
specification's words, to be compared with `validate_record`. -/
def claimed_rejection (cfg : Config) (record : Record) : Prop :=
  (∃ f ∈ cfg.required_fields, stripString (record.get f) = "")
  ∨ (cfg.amount_validation = true ∧ record.«交易金额» ≠ ""
      ∧ hasDigitString record.«交易金额» = false)

/-! ## Helper lemmas -/

/-- Membership in the pre-2025 identifier set is existence of a pre-cutoff
row carrying the identifier. -/
theorem mem_pre_2025_customers (rows : List Row) (cid : String) :
    cid ∈ pre_2025_customers rows ↔
      ∃ r ∈ rows, ∃ d, parse_date r.dateCell = some d ∧ d < year_2025_start ∧
        r.idCell = some cid := by
  unfold pre_2025_customers
  rw [List.mem_filterMap]
  constructor
  · rintro ⟨r, hr, hpre⟩
    refine ⟨r, hr, ?_⟩
    rcases hd : parse_date r.dateCell with _ | d
    · simp [pre_2025_row, hd] at hpre
    · rcases hi : r.idCell with _ | cid2
      · simp [pre_2025_row, hd, hi] at hpre
      · simp only [pre_2025_row, hd, hi] at hpre
        split_ifs at hpre with hlt
        exact ⟨d, rfl, hlt, by simpa using hpre⟩
  · rintro ⟨r, hr, d, hd, hlt, hi⟩
    exact ⟨r, hr, by simp [pre_2025_row, hd, hi, hlt]⟩

/-- Relabelling does not change the pre-2025 identifier set (only the mark
column is written). -/
theorem pre_2025_customers_map_mark (rows : List Row) (g : Row → String) :
    pre_2025_customers (rows.map (fun r => { r with mark := g r })) =
      pre_2025_customers rows := by
  unfold pre_2025_customers
  rw [List.filterMap_map]
  rfl

/-- Cells outside the written band are untouched by the formatting loop. -/
theorem apply_formatting_aux_outside (marks : List String) :
    ∀ (s : Nat) (ws : Worksheet) (c r : Nat),
      (c ≠ 20 ∨ r < s ∨ s + marks.length ≤ r) →
      apply_formatting_aux marks s ws c r = ws c r := by
  induction marks with
  | nil => intro s ws c r _; rfl
  | cons m ms ih =>
    intro s ws c r hcr
    have hside : c ≠ 20 ∨ r < s + 1 ∨ (s + 1) + ms.length ≤ r := by
      rcases hcr with h | h | h
      · exact Or.inl h
      · right; left; omega
      · right; right; simp only [List.length_cons] at h; omega
    show apply_formatting_aux ms (s + 1) (setCell ws 20 s (write_mark m)) c r = ws c r
    rw [ih (s + 1) _ c r hside]
    unfold setCell
    rw [if_neg]
    rintro ⟨hc, hr⟩
    rcases hcr with h | h | h
    · exact h hc
    · omega
    · simp only [List.length_cons] at h; omega

/-- The cell written for row index `i` of the loop holds the written mark. -/
theorem apply_formatting_aux_at (marks : List String) :
    ∀ (s : Nat) (ws : Worksheet) (i : Nat) (h : i < marks.length),
      apply_formatting_aux marks s ws 20 (s + i) =
        write_mark (marks.get ⟨i, h⟩) (ws 20 (s + i)) := by
  induction marks with
  | nil => intro s ws i h; exact absurd h (by simp)
  | cons m ms ih =>
    intro s ws i h
    cases i with
    | zero =>
      show apply_formatting_aux ms (s + 1) (setCell ws 20 s (write_mark m)) 20 (s + 0) = _
      rw [apply_formatting_aux_outside ms (s + 1) _ 20 (s + 0) (by omega)]
      unfold setCell
      rw [if_pos ⟨rfl, by omega⟩]
      congr 1
    | succ j =>
      show apply_formatting_aux ms (s + 1) (setCell ws 20 s (write_mark m)) 20 (s + (j + 1)) = _
      have hrow : s + (j + 1) = (s + 1) + j := by omega
      rw [hrow, ih (s + 1) _ j (by simpa using h)]
      congr 1
      unfold setCell
      rw [if_neg (by rintro ⟨_, hr⟩; omega)]

/-- The mark of any row after `mark_customer_types` is `mark_row` of the
original row over the pre-2025 set. -/
theorem mark_customer_types_get (rows : List Row) (i : Nat)
    (h : i < rows.length) (h2 : i < (mark_customer_types rows).length) :
    (mark_customer_types rows).get ⟨i, h2⟩ =
      { rows.get ⟨i, h⟩ with
          mark := mark_row (pre_2025_customers rows) (rows.get ⟨i, h⟩) } := by
  unfold mark_customer_types
  simp [List.get_eq_getElem, List.getElem_map]

/-- The dropWhile of a list with no digit over the no-digit test is empty. -/
theorem dropWhile_nondigit_eq_nil (l : Chars) (hl : ∀ c ∈ l, c.isDigit = false) :
    l.dropWhile (fun c => !c.isDigit) = [] := by
  rw [List.dropWhile_eq_nil_iff]
  intro x hx
  simp [hl x hx]

/-- Joining the prefix and the section bodies of `splitAtDates` restores the
document. -/
theorem splitAtDates_flatten (l : Chars) :
    (splitAtDates l).1 ++ ((splitAtDates l).2.map Prod.snd).flatten = l := by
  induction l with
  | nil => rfl
  | cons c rest ih =>
    rcases hps : splitAtDates rest with ⟨p, secs⟩
    rw [hps] at ih
    cases hm : matchDateAt (c :: rest)
    · simp only [splitAtDates, hm, hps, List.cons_append]
      rw [ih]
    · simp only [splitAtDates, hm, hps, List.map_cons, List.flatten_cons,
        List.nil_append, List.cons_append]
      rw [ih]

/-- Tagging a section list with `some` dates does not change the bodies. -/
theorem map_snd_tag (l : List (Chars × Chars)) :
    (l.map (fun s => ((some s.1 : Option Chars), s.2))).map Prod.snd = l.map Prod.snd := by
  induction l with
  | nil => rfl
  | cons x xs ih => simp [ih]

/-! ## Claim theorems -/

/-- C1: for every row whose date cell parses to a valid date and whose
identifier cell is non-missing, `mark_customer_types` assigns 存量 (existing)
exactly when the row's date is strictly before 2025-01-01 or the row's
identifier appears on some row of the table dated strictly before 2025-01-01,
and assigns 新增 (new) otherwise. -/
theorem c1_classifier_rule (rows : List Row) (i : Nat)
    (h : i < rows.length) (h2 : i < (mark_customer_types rows).length)
    (d : Int) (cid : String)
    (hd : parse_date (rows.get ⟨i, h⟩).dateCell = some d)
    (hid : (rows.get ⟨i, h⟩).idCell = some cid) :
    (((mark_customer_types rows).get ⟨i, h2⟩).mark = "存量" ↔
      (d < year_2025_start ∨ ∃ r ∈ rows, ∃ d2, parse_date r.dateCell = some d2 ∧
        d2 < year_2025_start ∧ r.idCell = some cid))
    ∧ (((mark_customer_types rows).get ⟨i, h2⟩).mark = "新增" ↔
      ¬(d < year_2025_start ∨ ∃ r ∈ rows, ∃ d2, parse_date r.dateCell = some d2 ∧
        d2 < year_2025_start ∧ r.idCell = some cid)) := by
  have hne : ¬(("存量" : String) = "新增") := by decide
  have hne2 : ¬(("新增" : String) = "存量") := by decide
  rw [mark_customer_types_get rows i h h2]
  show (mark_row (pre_2025_customers rows) (rows.get ⟨i, h⟩) = "存量" ↔ _)
    ∧ (mark_row (pre_2025_customers rows) (rows.get ⟨i, h⟩) = "新增" ↔ _)
  rw [← mem_pre_2025_customers rows cid]
  simp only [mark_row, hd, hid]
  by_cases hlt : d < year_2025_start
  · simp [hlt, hne, hne2]
  · by_cases hmem : cid ∈ pre_2025_customers rows
    · simp [hlt, hmem, hne, hne2]
    · simp [hlt, hmem, hne, hne2]

/-- Instantiation of `c1_classifier_rule` on the concrete table `wrows` at the
2025 row that reuses the pre-2025 identifier. -/
theorem c1_classifier_rule_check :
    (((mark_customer_types wrows).get ⟨1, by decide⟩).mark = "存量" ↔
      ((20250202 : Int) < year_2025_start ∨ ∃ r ∈ wrows, ∃ d2,
        parse_date r.dateCell = some d2 ∧ d2 < year_2025_start ∧ r.idCell = some "ID1"))
    ∧ (((mark_customer_types wrows).get ⟨1, by decide⟩).mark = "新增" ↔
      ¬((20250202 : Int) < year_2025_start ∨ ∃ r ∈ wrows, ∃ d2,
        parse_date r.dateCell = some d2 ∧ d2 < year_2025_start ∧ r.idCell = some "ID1")) :=
  c1_classifier_rule wrows 1 (by decide) (by decide) 20250202 "ID1" (by decide) (by decide)

/-- C2: every document is tiled by its sections (each spans from its heading
to the next heading or the end of text), and on the concrete document with a
pre-heading preamble, two date headings, three entry markers under the first
and one under the second: the sections are exactly the preamble plus the two
heading-to-heading spans, the raw entries are exactly the 3 + 1 = 4 fragments
after the per-section preambles, in document order, each attributed to its
enclosing heading's date, and text before the first heading contributes no
entries. -/
theorem c2_segmenter :
    (∀ content : Chars, parseSections content = [] ∨
        ((parseSections content).map Prod.snd).flatten = content)
    ∧ parseSections c2doc.data =
        [(none, "intro\n".data),
         (some "2025-01-01".data,
           "## 2025-01-01\n### Aa\nx\n### Bb\ny\n### Cc\nz\n".data),
         (some "2025-01-02".data, "## 2025-01-02\n### Dd\nw\n".data)]
    ∧ raw_entries c2doc =
        [("2025-01-01", "Aa\nx\n"), ("2025-01-01", "Bb\ny\n"),
         ("2025-01-01", "Cc\nz\n"), ("2025-01-02", "Dd\nw\n")]
    ∧ raw_entries ("text before the first heading\n" ++ c2doc) = raw_entries c2doc := by
  refine ⟨?_, by decide, by decide, by decide⟩
  intro content
  rcases hps : splitAtDates content with ⟨p, secs⟩
  have hj := splitAtDates_flatten content
  rw [hps] at hj
  cases secs with
  | nil => left; simp [parseSections, hps]
  | cons s ss =>
    right
    simp only [parseSections, hps]
    rw [List.map_append, map_snd_tag, List.flatten_append]
    by_cases hp : p = []
    · subst hp
      simpa using hj
    · rw [if_neg hp]
      simpa using hj

/-- C3 counterexample: with an empty required-field list and amount validation
enabled, a record whose amount is nonempty with no digit satisfies the claimed
rejection condition, yet `validate_record` keeps it (the early return at line
188/189 skips amount validation). -/
theorem c3_record_rejection_counterexample :
    claimed_rejection c3_cfg_no_required c3_bad_record ∧
    validate_record c3_cfg_no_required c3_bad_record = true := by
  constructor
  · unfold claimed_rejection
    decide
  · rfl

/-- C3 (amended): provided the configured required-field list is nonempty,
`validate_record` rejects a record exactly when some required field is empty
or whitespace-only, or amount validation is enabled and the amount is
nonempty with no decimal-digit substring. -/
theorem c3_record_rejection_amended (cfg : Config) (record : Record)
    (hne : cfg.required_fields ≠ []) :
    validate_record cfg record = false ↔ claimed_rejection cfg record := by
  have hemp : cfg.required_fields.isEmpty = false := by
    cases h : cfg.required_fields
    · exact absurd h hne
    · rfl
  unfold validate_record claimed_rejection
  rw [hemp]
  simp only [Bool.false_eq_true, if_false]
  split_ifs with hany hamt
  · simp only [List.any_eq_true, beq_iff_eq] at hany
    exact iff_of_true rfl (Or.inl hany)
  · simp only [Bool.and_eq_true, bne_iff_ne, Bool.not_eq_true'] at hamt
    exact iff_of_true rfl (Or.inr ⟨hamt.1.1, hamt.1.2, hamt.2⟩)
  · constructor
    · intro hft
      exact absurd hft (by simp)
    · rintro (hex | hrej)
      · simp only [List.any_eq_true, beq_iff_eq] at hany
        exact absurd hex hany
      · simp only [Bool.and_eq_true, bne_iff_ne, Bool.not_eq_true'] at hamt
        exact absurd ⟨⟨hrej.1, hrej.2.1⟩, hrej.2.2⟩ hamt

/-- Instantiation of `c3_record_rejection_amended` at the default
configuration and a record with the amount field missing: the rejection
equivalence at the claim's particular case. -/
theorem c3_record_rejection_amended_check :
    validate_record default_config c3_missing_amount_record = false ↔
      claimed_rejection default_config c3_missing_amount_record :=
  c3_record_rejection_amended default_config c3_missing_amount_record (by decide)

/-- C4: a row with a missing or unparseable date, or a missing identifier,
gets the empty mark (no label), and `apply_formatting` leaves the fill of
that row's column-T cell unchanged. -/
theorem c4_unlabeled_rows (rows : List Row) (i : Nat)
    (h : i < rows.length) (h2 : i < (mark_customer_types rows).length) (ws : Worksheet)
    (hskip : parse_date (rows.get ⟨i, h⟩).dateCell = none ∨
      (rows.get ⟨i, h⟩).idCell = none) :
    ((mark_customer_types rows).get ⟨i, h2⟩).mark = "" ∧
    (apply_formatting ((mark_customer_types rows).map Row.mark) ws 20 (3 + i)).fill =
      (ws 20 (3 + i)).fill := by
  have hmark : ((mark_customer_types rows).get ⟨i, h2⟩).mark = "" := by
    rw [mark_customer_types_get rows i h h2]
    show mark_row (pre_2025_customers rows) (rows.get ⟨i, h⟩) = ""
    rcases hd2 : parse_date (rows.get ⟨i, h⟩).dateCell with _ | d
    · simp only [mark_row, hd2]
    · rcases hi2 : (rows.get ⟨i, h⟩).idCell with _ | cid
      · simp only [mark_row, hd2, hi2]
      · rcases hskip with hs | hs
        · exact Option.noConfusion (hd2 ▸ hs)
        · exact Option.noConfusion (hi2 ▸ hs)
  refine ⟨hmark, ?_⟩
  have hlen : i < ((mark_customer_types rows).map Row.mark).length := by
    simpa using h2
  have hget : ((mark_customer_types rows).map Row.mark).get ⟨i, hlen⟩ = "" := by
    simpa [List.get_eq_getElem, List.getElem_map] using hmark
  unfold apply_formatting
  rw [apply_formatting_aux_at _ 3 ws i hlen, hget]
  rfl

/-- Instantiation of `c4_unlabeled_rows` at the date-less row of `wrows` on a
blank worksheet. -/
theorem c4_unlabeled_rows_check :
    ((mark_customer_types wrows).get ⟨3, by decide⟩).mark = "" ∧
    (apply_formatting ((mark_customer_types wrows).map Row.mark) wsBlank 20 (3 + 3)).fill =
      (wsBlank 20 (3 + 3)).fill :=
  c4_unlabeled_rows wrows 3 (by decide) (by decide) wsBlank (Or.inl (by decide))

/-- C5: on the entry whose first non-blank line is 张三 (no field labels) and
whose body contains 交易金额：100.50元；, the default-configuration parse
yields exactly one kept record with 姓名 = 张三 and 交易金额 = 100.50元 (the
trailing full-width semicolon excluded by the capture), and the exported
numeric amount of that raw amount is 100.50. -/
theorem c5_extractor_example :
    parse_markdown_content default_config c5doc =
      [{ «日期» := "2025-09-20", «姓名» := "张三", «交易笔数» := ""
       , «交易金额» := "100.50元", «交易日期» := "", «交易时间» := ""
       , «交易流水号» := "", «支付方式» := "", «商户» := "", «备注» := "" }]
    ∧ clean_amount "100.50元" = (100.5 : ℚ) := by
  constructor
  · decide
  · have h : firstNumber ("100.50元".data.filter (fun c => !(c = ','))) =
        some ("100".data, "50".data) := by decide
    have h1 : digitsToNat "100".data = 100 := by decide
    have h2 : digitsToNat "50".data = 50 := by decide
    have h3 : ("50".data : Chars).length = 2 := by decide
    unfold clean_amount
    rw [if_neg (by decide : ¬("100.50元" = "")), h]
    simp only [h1, h2, h3]
    norm_num

/-- C6: `clean_amount` strips commas and reads the first decimal-number
substring (1,234.5元 to 1234.5), maps the empty string to zero, maps a
digit-free string to zero, and in general maps every string without a
decimal digit to zero. -/
theorem c6_clean_amount :
    clean_amount "1,234.5元" = (1234.5 : ℚ)
    ∧ clean_amount "" = 0
    ∧ clean_amount "abc" = 0
    ∧ (∀ s : String, hasDigitString s = false → clean_amount s = 0) := by
  refine ⟨?_, ?_, ?_, ?_⟩
  · have h : firstNumber ("1,234.5元".data.filter (fun c => !(c = ','))) =
        some ("1234".data, "5".data) := by decide
    have h1 : digitsToNat "1234".data = 1234 := by decide
    have h2 : digitsToNat "5".data = 5 := by decide
    have h3 : ("5".data : Chars).length = 1 := by decide
    unfold clean_amount
    rw [if_neg (by decide : ¬("1,234.5元" = "")), h]
    simp only [h1, h2, h3]
    norm_num
  · unfold clean_amount
    rw [if_pos rfl]
  · have h : firstNumber ("abc".data.filter (fun c => !(c = ','))) = none := by decide
    unfold clean_amount
    rw [if_neg (by decide : ¬("abc" = "")), h]
  · intro s hs
    unfold clean_amount
    by_cases hempty : s = ""
    · rw [if_pos hempty]
    · rw [if_neg hempty]
      have hnone : firstNumber (s.data.filter (fun c => !(c = ','))) = none := by
        have hall : ∀ c ∈ s.data.filter (fun c => !(c = ',')), c.isDigit = false := by
          intro c hc
          have hcs : c ∈ s.data := (List.mem_filter.mp hc).1
          have hs2 : s.data.any Char.isDigit = false := hs
          have hno := List.any_eq_false.mp hs2 c hcs
          simpa using hno
        unfold firstNumber
        rw [dropWhile_nondigit_eq_nil _ hall]
      rw [hnone]

/-- Instantiation of the general zero-default clause of `c6_clean_amount` at a
concrete digit-free string. -/
theorem c6_clean_amount_check : clean_amount "元；x" = 0 :=
  c6_clean_amount.2.2.2 "元；x" (by decide)

/-- C7: running the classifier a second time on the already-labelled output
(with the date and identifier columns unchanged, since only the mark column is
written) produces the identical label assignment. -/
theorem c7_idempotent (rows : List Row) :
    mark_customer_types (mark_customer_types rows) = mark_customer_types rows := by
  simp only [mark_customer_types]
  rw [pre_2025_customers_map_mark, List.map_map]
  rfl

/-- C8: when the configuration file exists its parsed contents replace the
in-memory configuration wholesale (no deep merge: a top-level key missing
from a partial file, such as `validation`, is missing afterwards even though
the built-in defaults have it), and when the path does not exist the
in-memory configuration is left unchanged. -/
theorem c8_load_config_wholesale :
    (∀ fileCfg current : Yaml, load_config (some fileCfg) current = fileCfg)
    ∧ (∀ current : Yaml, load_config none current = current)
    ∧ Yaml.getKey (load_config (some partial_config_file) default_config_yaml)
        "validation" = none
    ∧ (Yaml.getKey default_config_yaml "validation").isSome = true := by
  exact ⟨fun _ _ => rfl, fun _ => rfl, rfl, rfl⟩

/-- C9: two parses whose configurations differ only in
`parsing_rules.entry_pattern` return the same record list; the split at
line 116 uses the literal marker and never consults the configured pattern. -/
theorem c9_entry_pattern_noninterference (content : String) (cfg : Config)
    (p1 p2 : String) :
    parse_markdown_content { cfg with entry_pattern := p1 } content =
      parse_markdown_content { cfg with entry_pattern := p2 } content := rfl

/-- C10: `apply_formatting` touches only column-T cells of rows 3 through
3 + n - 1 (every other cell keeps its value and fill); inside that band it
writes the computed label — the empty-string label of skipped rows included,
overwriting any prior cell value — and applies a fill only for 新增 or 存量,
leaving the fill unchanged for any other written value. -/
theorem c10_formatting_frame :
    (∀ (marks : List String) (ws : Worksheet) (c r : Nat),
        ¬(c = 20 ∧ 3 ≤ r ∧ r < 3 + marks.length) →
        apply_formatting marks ws c r = ws c r)
    ∧ (∀ (marks : List String) (ws : Worksheet) (i : Nat) (h : i < marks.length),
        (apply_formatting marks ws 20 (3 + i)).value = some (marks.get ⟨i, h⟩))
    ∧ (∀ (marks : List String) (ws : Worksheet) (i : Nat) (h : i < marks.length),
        (marks.get ⟨i, h⟩ = "新增" →
          (apply_formatting marks ws 20 (3 + i)).fill = some COLOR_NEW_CUSTOMER)
        ∧ (marks.get ⟨i, h⟩ = "存量" →
          (apply_formatting marks ws 20 (3 + i)).fill = some COLOR_EXISTING_CUSTOMER)
        ∧ (marks.get ⟨i, h⟩ ≠ "新增" → marks.get ⟨i, h⟩ ≠ "存量" →
          (apply_formatting marks ws 20 (3 + i)).fill = (ws 20 (3 + i)).fill)) := by
  refine ⟨?_, ?_, ?_⟩
  · intro marks ws c r hcr
    unfold apply_formatting
    apply apply_formatting_aux_outside
    by_cases hc : c = 20
    · subst hc
      right
      omega
    · exact Or.inl hc
  · intro marks ws i h
    unfold apply_formatting
    rw [apply_formatting_aux_at marks 3 ws i h]
    unfold write_mark
    split_ifs <;> rfl
  · intro marks ws i h
    unfold apply_formatting
    rw [apply_formatting_aux_at marks 3 ws i h]
    refine ⟨?_, ?_, ?_⟩
    · intro hm
      rw [hm]
      rfl
    · intro hm
      rw [hm]
      rfl
    · intro hm1 hm2
      simp only [write_mark]
      rw [if_neg hm1, if_neg hm2]

/-- Instantiation of `c10_formatting_frame` on a blank worksheet with the
single mark 新增: a cell outside the band is untouched, the band cell holds
the written value, and the fill is the new-customer color. -/
theorem c10_formatting_frame_check :
    apply_formatting ["新增"] wsBlank 1 1 = wsBlank 1 1
    ∧ (apply_formatting ["新增"] wsBlank 20 (3 + 0)).value =
        some (["新增"].get ⟨0, by decide⟩)
    ∧ (apply_formatting ["新增"] wsBlank 20 (3 + 0)).fill = some COLOR_NEW_CUSTOMER :=
  ⟨c10_formatting_frame.1 ["新增"] wsBlank 1 1 (by decide),
   c10_formatting_frame.2.1 ["新增"] wsBlank 0 (by decide),
   (c10_formatting_frame.2.2 ["新增"] wsBlank 0 (by decide)).1 rfl⟩
